import Mathlib

/-!
Verification of the Task-Manager REST API request pipeline.

The definitions below are a shallow embedding of the repository's
TypeScript source:

* `src/middleware/validateTask.ts` — `validateCreateTask`,
  `validateUpdateTask`, `validateTaskId`, `validateQueryParams`;
* `src/middleware/authMiddleware.ts` — `authenticate`;
* `src/controllers` (task controller) — query-parameter extraction and
  the status-code mapping after each Data Store call;
* `src/services/taskService.ts` — `getAllTasks` query construction and
  `createTask` insert-row construction;
* `src/routes/taskRoutes.ts` — the middleware chains of the three
  task-by-id routes;
* the rate-limit tier configuration (`config/rateLimiter`) whose checking
  algorithm lives in the `express-rate-limit` dependency and is therefore
  modelled from the spec.

Request bodies are association lists of JSON values; JavaScript
truthiness is made explicit wherever the source branches on it.
-/

set_option autoImplicit false

namespace TaskManager

/-- A JSON value as it can appear in a parsed request body. -/
inductive JVal where
  | str (s : String)
  | num (n : Int)
  | jbool (b : Bool)
  | jnull
  deriving DecidableEq, Repr

/-- JavaScript truthiness of a `JVal` (`""`, `0`, `false`, `null` are falsy). -/
def JVal.truthy : JVal → Bool
  | .str s => s != ""
  | .num n => n != 0
  | .jbool b => b
  | .jnull => false

/-- JavaScript truthiness of a possibly-absent value (`undefined` is falsy). -/
def jsTruthy : Option JVal → Bool
  | none => false
  | some v => v.truthy

/-- `typeof x === "string"` on a possibly-absent value. -/
def isStringVal : Option JVal → Bool
  | some (.str _) => true
  | _ => false

/-- The underlying string of a value; used only after `isStringVal` held. -/
def strOf : Option JVal → String
  | some (.str s) => s
  | _ => ""

/-- A request body: a JSON object, as an association list with unique keys. -/
abbrev Body := List (String × JVal)

/-- The whitespace characters JavaScript's `String.prototype.trim` removes
(restricted to the ASCII ones; the exotic Unicode space characters never
appear in this development). -/
def jsWhitespace (c : Char) : Bool :=
  c = ' ' || c = '\t' || c = '\n' || c = '\r' || c = '\x0b' || c = '\x0c'

/-- `x.trim()` on the character list of a string. -/
def trimChars (l : List Char) : List Char :=
  ((l.dropWhile jsWhitespace).reverse.dropWhile jsWhitespace).reverse

/-- `x.split(sep)` of JavaScript on a character list: split at every
occurrence of `sep`; the empty string splits to `[""]`. -/
def splitChar (sep : Char) : List Char → List (List Char)
  | [] => [[]]
  | c :: cs =>
    let r := splitChar sep cs
    if c = sep then [] :: r
    else
      match r with
      | g :: gs => (c :: g) :: gs
      | [] => [[c]]

/-- `VALID_PRIORITIES` from `validateTask.ts`. -/
def VALID_PRIORITIES : List String := ["low", "medium", "high"]

/-- `VALID_STATUSES` from `validateTask.ts` (note: `in-process`, as written there). -/
def VALID_STATUSES : List String := ["pending", "in-process", "completed"]

/-- `xs.includes(v)` where `xs` is a string array and `v` a JSON value:
JavaScript `includes` uses `===`, so a non-string value never matches. -/
def includesJ (xs : List String) : Option JVal → Bool
  | some (.str s) => xs.contains s
  | _ => false

/-- `validateCreateTask` from `validateTask.ts`, as a function from the body to
the single error string of the 400 response it sends (`none` = `next()`).
`dateOk` is the not-`isNaN(new Date(x).getTime())` check; JavaScript `Date`
parsing is a host-runtime behaviour, so it is a parameter of the embedding. -/
def validateCreateTask (dateOk : Option JVal → Bool) (body : Body) : Option String :=
  let title := body.lookup "title"
  let priority := body.lookup "priority"
  let due_date := body.lookup "due_date"
  if !jsTruthy title || !isStringVal title || trimChars (strOf title).data == [] then
    some "Title is required and must be an non-empty string"
  else if (strOf title).data.length > 255 then
    some "Title must be 255 character or less"
  else if jsTruthy priority && !includesJ VALID_PRIORITIES priority then
    some "Priority must be one of 'low', 'medium', or 'high'"
  else if jsTruthy due_date && !dateOk due_date then
    some "Invalid date format for due_date Use iso format YYYY-MM-DD"
  else
    none

/-- `validateUpdateTask` from `validateTask.ts`. The source nests the two
title checks inside one `title !== undefined` block; each inner failure
returns at once, which the successive conditionals below reproduce. -/
def validateUpdateTask (dateOk : Option JVal → Bool) (body : Body) : Option String :=
  let title := body.lookup "title"
  let status := body.lookup "status"
  let priority := body.lookup "priority"
  let due_date := body.lookup "due_date"
  if body.length == 0 then
    some "at least one field is required for update"
  else if title != none && (!isStringVal title || trimChars (strOf title).data == []) then
    some "title must be a non-empty string"
  else if title != none && (strOf title).data.length > 255 then
    some "title must be 255 characters or less"
  else if jsTruthy status && !includesJ VALID_STATUSES status then
    some "status must be any one of pending, in-process, completed"
  else if jsTruthy priority && !includesJ VALID_PRIORITIES priority then
    some "Priority must be one of: low, medium, high"
  else if jsTruthy due_date && !dateOk due_date then
    some "Invalid date format for due_date"
  else
    none

/-- One hexadecimal digit, either case (the source regex carries the `i` flag). -/
def isHexDigit (c : Char) : Bool :=
  c.isDigit || ('a' ≤ c && c ≤ 'f') || ('A' ≤ c && c ≤ 'F')

/-- The UUID regex of `validateTaskId`:
`^[0-9a-f]{8}-[0-9a-f]{4}-[0-9a-f]{4}-[0-9a-f]{4}-[0-9a-f]{12}$/i`.
A string matches exactly when splitting on `-` yields five hexadecimal
groups of lengths 8, 4, 4, 4, 12 (hex digits contain no `-`). -/
def matchesUuid (s : String) : Bool :=
  let parts := splitChar '-' s.data
  parts.map List.length == [8, 4, 4, 4, 12] && parts.all (List.all · isHexDigit)

/-- `validateTaskId` from `validateTask.ts` (`none` = `next()`). -/
def validateTaskId (id : String) : Option String :=
  if !matchesUuid id then
    some "invalid task ID format. Must be a valid UUID"
  else
    none

/-- A raw query string: association list of string-valued parameters, as
Express delivers scalar `req.query` entries. -/
abbrev RawQuery := List (String × String)

/-- JavaScript truthiness of a possibly-absent string. -/
def strTruthy : Option String → Bool
  | some s => s != ""
  | none => false

/-- `validateQueryParams` from `validateTask.ts`. `jsNum` models
`Number(x)` with `none` for `NaN`; like `Date`, numeric coercion is
host-runtime behaviour and is a parameter. Note the function reads only
`status`, `priority`, `limit`, `offset`, `order` — it never looks at
`sort_by` or `search`. -/
def validateQueryParams (jsNum : String → Option Int) (query : RawQuery) : Option String :=
  let status := query.lookup "status"
  let priority := query.lookup "priority"
  let limit := query.lookup "limit"
  let offset := query.lookup "offset"
  let order := query.lookup "order"
  if strTruthy status && !(VALID_STATUSES.contains (status.getD "")) then
    some "invalid prioirty must be one of pending,in-process,completed"
  else if strTruthy priority && !(VALID_PRIORITIES.contains (priority.getD "")) then
    some "invalid priority must be high medium low"
  else if strTruthy limit &&
      (match jsNum (limit.getD "") with
       | none => true
       | some n => n < 1 || n > 100) then
    some "Limit must be a number between 1 and 100"
  else if strTruthy offset &&
      (match jsNum (offset.getD "") with
       | none => true
       | some n => n < 0) then
    some "Offset must be a non-negative number"
  else if strTruthy order && !(["asc", "desc"].contains (order.getD "")) then
    some "Order must be either \x22asc\x22 or \x22desc\x22"
  else
    none

/-- `TaskQueryParams` as the task controller actually populates it: every
field of `req.query` is passed through an unchecked `as` cast, so at runtime
the string fields hold whatever string the caller sent. -/
structure TaskQueryParams where
  status : Option String := none
  priority : Option String := none
  search : Option String := none
  sort_by : Option String := none
  order : Option String := none
  limit : Option Int := none
  offset : Option Int := none
  deriving DecidableEq, Repr

/-- JavaScript truthiness of a possibly-absent number (`0` and `undefined`
falsy; a `NaN` from `parseInt` is collapsed to `none`, which branches the
same way everywhere downstream). -/
def intTruthy : Option Int → Bool
  | some n => n != 0
  | none => false

/-- The task controller's `getAllTasks` parameter extraction:
`limit: req.query.limit ? parseInt(req.query.limit) : undefined` and the
same for `offset`; the other five fields are passed through unchanged.
`parseIntJs` models `parseInt`, with `none` for `NaN`. -/
def controllerQueryParams (parseIntJs : String → Option Int) (query : RawQuery) :
    TaskQueryParams :=
  { status := query.lookup "status"
    priority := query.lookup "priority"
    search := query.lookup "search"
    sort_by := query.lookup "sort_by"
    order := query.lookup "order"
    limit :=
      match query.lookup "limit" with
      | some s => if s != "" then parseIntJs s else none
      | none => none
    offset :=
      match query.lookup "offset" with
      | some s => if s != "" then parseIntJs s else none
      | none => none }

/-- One predicate attached to a Supabase query builder. `eq` carries its
column and value as separate arguments of the builder's `.eq(col, val)`
method — the store's parameter-binding interface. `orFilter` carries the
single already-assembled filter string handed to `.or(expr)`. -/
inductive Filter where
  | eq (column : String) (value : String)
  | orFilter (expr : String)
  deriving DecidableEq, Repr

/-- The query description accumulated by `getAllTasks` before `await`:
filters in application order, sort column and direction, `.limit`,
`.range`, and whether an exact total count was requested. -/
structure SupaQuery where
  table : String
  countExact : Bool
  filters : List Filter
  sortColumn : String
  ascending : Bool
  limit : Option Int
  range : Option (Int × Int)
  deriving DecidableEq, Repr

/-- The string handed to `.or(...)` for a search term `s`, built in the
source by template-literal interpolation:
`` `title.ilike.%${s}%,description.ilike.%${s}%` ``. -/
def searchOrExpr (s : String) : String :=
  "title.ilike.%" ++ s ++ "%,description.ilike.%" ++ s ++ "%"

/-- `getAllTasks` from `taskService.ts`, up to the point where the built
query is awaited. -/
def getAllTasksQuery (p : TaskQueryParams) : SupaQuery :=
  let statusFilters := if strTruthy p.status then [Filter.eq "status" (p.status.getD "")] else []
  let priorityFilters := if strTruthy p.priority then [Filter.eq "priority" (p.priority.getD "")] else []
  let searchFilters := if strTruthy p.search then [Filter.orFilter (searchOrExpr (p.search.getD ""))] else []
  let sortColumn :=
    match p.sort_by with
    | some s => if s != "" then s else "created_at"
    | none => "created_at"
  { table := "tasks"
    countExact := true
    filters := statusFilters ++ priorityFilters ++ searchFilters
    sortColumn := sortColumn
    ascending := p.order == some "asc"
    limit := if intTruthy p.limit then p.limit else none
    range :=
      if intTruthy p.offset then
        some (p.offset.getD 0,
          p.offset.getD 0 + ((if intTruthy p.limit then p.limit.getD 0 else 10) - 1))
      else none }

/-- `CreateTaskDTO` as the create controller receives it (`req.body` cast);
`status` is listed because a client may send it — the service ignores it. -/
structure CreateTaskDTO where
  title : String
  description : Option String := none
  priority : Option String := none
  due_date : Option String := none
  status : Option String := none
  deriving DecidableEq, Repr

/-- The row a task insert hands to the Data Store. -/
structure InsertRow where
  title : String
  description : Option String
  priority : Option String
  due_date : Option String
  status : String
  deriving DecidableEq, Repr

/-- The `insertData` object built by `createTask` in `taskService.ts`:
`description` and `due_date` go through `x || null`, `priority` is copied
as-is (absent stays absent), and `status` is the literal `"pending"`. -/
def createTaskInsertData (t : CreateTaskDTO) : InsertRow :=
  { title := t.title
    description := if strTruthy t.description then t.description else none
    priority := t.priority
    due_date := if strTruthy t.due_date then t.due_date else none
    status := "pending" }

/-- Modelled from the spec: the `tasks` table schema is not in the source
tree; per the spec's data model, `priority` defaults to `medium`, i.e. the
stored row's priority is the inserted one when present and `medium` when the
insert omits the column. -/
def storedPriority (r : InsertRow) : String := r.priority.getD "medium"

/-- The Identity Provider's verdict on a token (`getUserFromToken`):
either an identity (its user id) or an error/empty user. -/
inductive ProviderVerdict where
  | valid (userId : String)
  | invalid
  deriving DecidableEq, Repr

/-- Outcome of the `authenticate` middleware. `httpStatus = none` means the
middleware called `next()`; `user` is the identity attached to the request;
`providerCalledWith` records the token sent to the Identity Provider, if a
remote verification call was made at all. -/
structure AuthResult where
  httpStatus : Option Nat
  user : Option String
  providerCalledWith : Option String
  deriving DecidableEq, Repr

/-- `authenticate` from `authMiddleware.ts`. The source checks, in order:
header present; `authHeader.startsWith("Bearer")` (no trailing space);
`authHeader.split(" ")[1]` truthy; then one remote `getUserFromToken` call. -/
def authenticate (provider : String → ProviderVerdict) (authHeader : Option String) :
    AuthResult :=
  match authHeader with
  | none => ⟨some 401, none, none⟩
  | some h =>
    if !List.isPrefixOf "Bearer".data h.data then ⟨some 401, none, none⟩
    else
      match (splitChar ' ' h.data)[1]? with
      | none => ⟨some 401, none, none⟩
      | some t =>
        if t == [] then ⟨some 401, none, none⟩
        else
          match provider (String.mk t) with
          | .invalid => ⟨some 401, none, some (String.mk t)⟩
          | .valid u => ⟨none, some u, some (String.mk t)⟩

/-- The header shape the spec demands, in the spec's words: the Authorization
header "must be of the form `Bearer <token>`" — the literal `Bearer`, one
space, then a nonempty token. Stated for comparison with what `authenticate`
actually accepts; it is not part of the source embedding. -/
def isBearerShape (h : String) : Bool :=
  List.isPrefixOf "Bearer ".data h.data && h.data.drop 7 != []

/-- What one Data Store call returned, as seen by a task controller:
`error` from the supabase reply, and whether a row came back. -/
structure StoreReply where
  errored : Bool
  found : Bool
  deriving DecidableEq, Repr

/-- The controller's uniform mapping after a by-id Data Store call:
`if (error)` gives 500, `if (!data)` gives 404, else the success code. -/
def controllerStatus (successCode : Nat) (r : StoreReply) : Nat :=
  if r.errored then 500 else if !r.found then 404 else successCode

/-- Outcome of one whole request through a task-by-id route's middleware
chain: the response status, whether any Data Store call was made, and
whether any Identity Provider call was made. -/
structure RouteOutcome where
  httpStatus : Nat
  dataStoreCalled : Bool
  providerCalled : Bool
  deriving DecidableEq, Repr

/-- `GET /tasks/:id` (`taskRoutes.ts`): `validateTaskId` then the
controller, which always performs the store lookup. -/
def getTaskByIdRoute (store : String → StoreReply) (id : String) : RouteOutcome :=
  match validateTaskId id with
  | some _ => ⟨400, false, false⟩
  | none => ⟨controllerStatus 200 (store id), true, false⟩

/-- `PUT /tasks/:id` (`taskRoutes.ts`): `authenticate`, `validateTaskId`,
`validateUpdateTask`, then the controller's store update. -/
def putTaskRoute (provider : String → ProviderVerdict) (store : String → StoreReply)
    (dateOk : Option JVal → Bool) (authHeader : Option String) (id : String)
    (body : Body) : RouteOutcome :=
  let a := authenticate provider authHeader
  match a.httpStatus with
  | some s => ⟨s, false, a.providerCalledWith.isSome⟩
  | none =>
    match validateTaskId id with
    | some _ => ⟨400, false, true⟩
    | none =>
      match validateUpdateTask dateOk body with
      | some _ => ⟨400, false, true⟩
      | none => ⟨controllerStatus 200 (store id), true, true⟩

/-- `DELETE /tasks/:id` (`taskRoutes.ts`): `authenticate`, `validateTaskId`,
then the controller's store delete. -/
def deleteTaskRoute (provider : String → ProviderVerdict) (store : String → StoreReply)
    (authHeader : Option String) (id : String) : RouteOutcome :=
  let a := authenticate provider authHeader
  match a.httpStatus with
  | some s => ⟨s, false, a.providerCalledWith.isSome⟩
  | none =>
    match validateTaskId id with
    | some _ => ⟨400, false, true⟩
    | none => ⟨controllerStatus 200 (store id), true, true⟩

/-- A rate-limit tier: window length (ms) and maximum requests per window.
The tiers configured in `config/rateLimiter` (e.g. `authLimiter` 5 per
15 min, `createTaskLimiter` 30 per hour) instantiate this. -/
structure Tier where
  maxRequests : Nat
  windowMs : Nat
  deriving DecidableEq, Repr

/-- One caller's bucket: request counter and window-start timestamp. -/
structure Bucket where
  count : Nat
  windowStart : Nat
  deriving DecidableEq, Repr

/-- Allow, or deny carrying the retry-after (remaining window, ms). -/
inductive RLVerdict where
  | allow
  | deny (retryAfterMs : Nat)
  deriving DecidableEq, Repr

/-- Modelled from the spec: the counting algorithm of the rate limiter lives
in the `express-rate-limit` dependency, not in the source tree; the spec
describes it as: "if no bucket exists or the window has elapsed, start a new
window with counter = 1 and allow. Otherwise increment the counter; if it
exceeds the tier's max, deny and report remaining window time as
retry-after; else allow." -/
def rlCheck (tier : Tier) (bucket : Option Bucket) (now : Nat) : RLVerdict × Bucket :=
  match bucket with
  | none => (.allow, ⟨1, now⟩)
  | some b =>
    if b.windowStart + tier.windowMs ≤ now then
      (.allow, ⟨1, now⟩)
    else
      let c := b.count + 1
      if tier.maxRequests < c then
        (.deny (b.windowStart + tier.windowMs - now), ⟨c, b.windowStart⟩)
      else
        (.allow, ⟨c, b.windowStart⟩)

/-- Fold `rlCheck` over a sequence of request timestamps from one caller
key, returning the final bucket state. -/
def rlRun (tier : Tier) (bucket : Option Bucket) : List Nat → Option Bucket
  | [] => bucket
  | t :: ts => rlRun tier (some (rlCheck tier bucket t).2) ts

/-- Fixture instantiating the host-runtime `Date` parameter on concrete
inputs whose date branch is either skipped or satisfied. -/
def dateOkAll : Option JVal → Bool := fun _ => true

/-- Fixture instantiating the host-runtime numeric-coercion parameters
(`Number`, `parseInt`) on concrete inputs: plain decimal strings. -/
def decNum : String → Option Int := String.toInt?

/-- Fixture Identity Provider that rejects every token. -/
def providerInvalid : String → ProviderVerdict := fun _ => ProviderVerdict.invalid

/-- Fixture Data Store in which every id resolves to a row without error. -/
def storeAlways : String → StoreReply := fun _ => ⟨false, true⟩

set_option maxRecDepth 8000

/-- C2: the update validator and the list-query validator accept the status
value `in-process` and reject the spec's enumerated value `in-progress` with
a 400 error — evaluated here at both inputs. `VALID_STATUSES` in the source
is `['pending','in-process','completed']`, although the repository's own
swagger annotation on the list route and its README both enumerate
`pending, in-progress, completed`. -/
theorem c2_status_enum_code_bug :
    validateUpdateTask dateOkAll [("status", JVal.str "in-progress")] =
      some "status must be any one of pending, in-process, completed" ∧
    validateUpdateTask dateOkAll [("status", JVal.str "in-process")] = none ∧
    validateQueryParams decNum [("status", "in-progress")] =
      some "invalid prioirty must be one of pending,in-process,completed" ∧
    VALID_STATUSES = ["pending", "in-process", "completed"] := by
  refine ⟨by decide, by decide, by decide, by decide⟩

/-- C1 counterexample: for the search term `INJECT`, the filter expression
handed to the store's `.or(...)` is the concatenation
`title.ilike.%INJECT%,description.ilike.%INJECT%`, which embeds the
caller-supplied string verbatim (it occurs as an infix), refuting the claim
that no filter string ever embeds the search value by concatenation. -/
theorem c1_search_interpolated_counterexample :
    Filter.orFilter "title.ilike.%INJECT%,description.ilike.%INJECT%" ∈
      (getAllTasksQuery { search := some "INJECT" }).filters ∧
    "INJECT".data <:+: "title.ilike.%INJECT%,description.ilike.%INJECT%".data := by
  refine ⟨by decide, by decide⟩

/-- C4 counterexample: a create body whose title is 256 characters long and
whose priority is invalid receives exactly the same single-error response as
a body whose only problem is the over-long title; the priority violation
(shown real by the third conjunct) is not listed, refuting "lists every
offending field at once". -/
theorem c4_single_error_counterexample :
    validateCreateTask dateOkAll
        [("title", JVal.str (String.mk (List.replicate 256 'a'))),
         ("priority", JVal.str "wrong")] =
      some "Title must be 255 character or less" ∧
    validateCreateTask dateOkAll
        [("title", JVal.str (String.mk (List.replicate 256 'a'))),
         ("priority", JVal.str "medium")] =
      some "Title must be 255 character or less" ∧
    validateCreateTask dateOkAll [("title", JVal.str "ok"), ("priority", JVal.str "wrong")] =
      some "Priority must be one of 'low', 'medium', or 'high'" := by
  refine ⟨by decide, by decide, by decide⟩

/-- C5 counterexample: a nonempty update body containing only the
unrecognized field `foo` — none of `title`, `status`, `priority`,
`due_date` is present — passes validation (`next()` is called), refuting
the claim that bodies with no recognized field are rejected with 400. -/
theorem c5_unrecognized_fields_counterexample :
    validateUpdateTask dateOkAll [("foo", JVal.jbool true)] = none ∧
    (([("foo", JVal.jbool true)] : Body).lookup "title" = none ∧
      ([("foo", JVal.jbool true)] : Body).lookup "status" = none ∧
      ([("foo", JVal.jbool true)] : Body).lookup "priority" = none ∧
      ([("foo", JVal.jbool true)] : Body).lookup "due_date" = none) := by
  refine ⟨by decide, by decide, by decide, by decide⟩

/-- C6 counterexample: the header `Bearers evil` is not of the spec's form
`Bearer <token>`, yet `authenticate` extracts `evil`, invokes the Identity
Provider with it, and — when the provider accepts — admits the request,
refuting "returns 401 without invoking the Identity Provider". -/
theorem c6_malformed_header_counterexample :
    isBearerShape "Bearers evil" = false ∧
    authenticate (fun _ => ProviderVerdict.valid "user-1") (some "Bearers evil") =
      ⟨none, some "user-1", some "evil"⟩ := by
  refine ⟨by decide, by decide⟩

/-- C8 counterexample: the query string `?sort_by=id` passes
`validateQueryParams` (which never reads `sort_by`), and the built query
then sorts by the column `id`, which is not in the allow-list
`created_at, updated_at, due_date, priority` — refuting the claim that the
sort column is always one of the allow-list. -/
theorem c8_sort_allowlist_counterexample :
    validateQueryParams decNum [("sort_by", "id")] = none ∧
    (getAllTasksQuery (controllerQueryParams decNum [("sort_by", "id")])).sortColumn = "id" ∧
    "id" ∉ ["created_at", "updated_at", "due_date", "priority"] := by
  refine ⟨by decide, by decide, by decide⟩

/-- C9 counterexample: a `PUT /tasks/{id}` request whose id `not-a-uuid`
fails the UUID pattern but which carries no Authorization header is answered
401, not 400 — the authenticate middleware runs before `validateTaskId` on
the write routes — refuting "the response is 400" as stated (the Data Store
is indeed never called). -/
theorem c9_authenticated_route_counterexample :
    matchesUuid "not-a-uuid" = false ∧
    putTaskRoute providerInvalid storeAlways dateOkAll none "not-a-uuid" [] =
      ⟨401, false, false⟩ := by
  refine ⟨by decide, by decide⟩

/-- C7: for every create input, the row handed to the Data Store carries the
literal status `pending` (whatever the body said), and its priority column is
the given priority when present and absent otherwise, so the stored priority
(store default `medium`, modelled from the spec) is the given one or
`medium`. -/
theorem c7_create_status_and_priority (t : CreateTaskDTO) :
    (createTaskInsertData t).status = "pending" ∧
    (∀ pr, t.priority = some pr → storedPriority (createTaskInsertData t) = pr) ∧
    (t.priority = none → storedPriority (createTaskInsertData t) = "medium") := by
  refine ⟨rfl, ?_, ?_⟩
  · intro pr hpr
    simp [storedPriority, createTaskInsertData, hpr]
  · intro hpr
    simp [storedPriority, createTaskInsertData, hpr]

/-- C7 witness, the spec's scenario: title `Write spec` with priority `high`
(and whatever status field the client sent) stores status `pending` and
priority `high`. -/
theorem c7_create_witness :
    (createTaskInsertData
        { title := "Write spec", priority := some "high", status := some "completed" }).status =
      "pending" ∧
    storedPriority (createTaskInsertData
        { title := "Write spec", priority := some "high", status := some "completed" }) =
      "high" :=
  ⟨(c7_create_status_and_priority _).1, (c7_create_status_and_priority _).2.1 "high" rfl⟩

/-- C10: an offset of 0 is falsy in JavaScript, so `getAllTasks` builds
exactly the same query for `offset = 0` as for an absent offset, for every
combination of the remaining parameters; and a strictly positive offset does
attach a range window. -/
theorem c10_offset_zero_noop (p : TaskQueryParams) :
    getAllTasksQuery { p with offset := some 0 } = getAllTasksQuery { p with offset := none } ∧
    ∀ o : Int, 0 < o → ((getAllTasksQuery { p with offset := some o }).range).isSome := by
  constructor
  · simp [getAllTasksQuery, intTruthy]
  · intro o ho
    simp [getAllTasksQuery, intTruthy, ho.ne']

/-- C10 witness: at concrete parameters, offset 0 builds the query that
omitting offset builds, and offset 3 attaches a window. -/
theorem c10_offset_zero_witness :
    getAllTasksQuery { status := some "pending", offset := some 0 } =
      getAllTasksQuery { status := some "pending", offset := none } ∧
    ((getAllTasksQuery { status := some "pending", offset := some 3 }).range).isSome :=
  ⟨(c10_offset_zero_noop { status := some "pending" }).1,
   (c10_offset_zero_noop { status := some "pending" }).2 3 (by decide)⟩

/-- Inside a still-open window, a check increments the counter and keeps the
window start, whether it allows or denies. -/
theorem rlCheck_snd_in_window (tier : Tier) (c t0 now : Nat)
    (h : now < t0 + tier.windowMs) :
    (rlCheck tier (some ⟨c, t0⟩) now).2 = ⟨c + 1, t0⟩ := by
  simp only [rlCheck]
  rw [if_neg (by omega)]
  split <;> rfl

/-- Folding checks over requests that all fall inside the window starting at
`t0` adds their number to the counter and never moves the window start. -/
theorem rlRun_in_window (tier : Tier) (t0 : Nat) (ts : List Nat) :
    ∀ c : Nat, (∀ t ∈ ts, t < t0 + tier.windowMs) →
      rlRun tier (some ⟨c, t0⟩) ts = some ⟨c + ts.length, t0⟩ := by
  induction ts with
  | nil => intro c _; simp [rlRun]
  | cons t ts ih =>
    intro c h
    have ht : t < t0 + tier.windowMs := h t (List.mem_cons_self t ts)
    rw [rlRun, rlCheck_snd_in_window tier c t0 t ht,
      ih (c + 1) (fun x hx => h x (List.mem_cons_of_mem t hx))]
    simp
    omega

/-- C3 (rate limiter, modelled from the spec): a check with no bucket starts
a window with counter 1 and allows; an in-window check increments the counter
and allows exactly while the counter stays within the tier's max; after the
first request at `t0` and `max − 1` further in-window requests the counter is
`max`, and one more in-window request is denied with a positive retry-after
of at most the window length; once the window has elapsed the next check
allows and resets the counter to 1. -/
theorem c3_rate_limiter_spec (tier : Tier) (t0 tD tA : Nat) (ts : List Nat)
    (hts : ∀ t ∈ ts, t < t0 + tier.windowMs)
    (hlen : ts.length + 1 = tier.maxRequests)
    (hD0 : t0 ≤ tD) (hDin : tD < t0 + tier.windowMs)
    (hA : t0 + tier.windowMs ≤ tA) :
    rlCheck tier none t0 = (.allow, ⟨1, t0⟩) ∧
    (∀ c now, now < t0 + tier.windowMs →
      (rlCheck tier (some ⟨c, t0⟩) now).2 = ⟨c + 1, t0⟩ ∧
      ((rlCheck tier (some ⟨c, t0⟩) now).1 = .allow ↔ c + 1 ≤ tier.maxRequests)) ∧
    rlRun tier (some ⟨1, t0⟩) ts = some ⟨tier.maxRequests, t0⟩ ∧
    (∃ r, rlCheck tier (some ⟨tier.maxRequests, t0⟩) tD =
        (.deny r, ⟨tier.maxRequests + 1, t0⟩) ∧ 0 < r ∧ r ≤ tier.windowMs) ∧
    (∀ c, rlCheck tier (some ⟨c, t0⟩) tA = (.allow, ⟨1, tA⟩)) := by
  refine ⟨rfl, ?_, ?_, ?_, ?_⟩
  · intro c now hnow
    constructor
    · exact rlCheck_snd_in_window tier c t0 now hnow
    · simp only [rlCheck]
      rw [if_neg (by omega)]
      constructor
      · intro hallow
        by_contra hgt
        rw [if_pos (by omega)] at hallow
        exact absurd hallow (by simp)
      · intro hle
        rw [if_neg (by omega)]
  · rw [rlRun_in_window tier t0 ts 1 hts]
    congr 1
    rw [Bucket.mk.injEq]
    omega
  · refine ⟨t0 + tier.windowMs - tD, ?_, by omega, by omega⟩
    simp only [rlCheck]
    rw [if_neg (by omega), if_pos (by omega)]
  · intro c
    simp only [rlCheck]
    rw [if_pos (by omega)]

/-- C3 witness: the login tier (5 requests per 15 minutes): requests at
1, 10, 20, 30, 40 ms fill the window begun at 0; the 6th at 50 ms is denied
with retry-after 899950 ms; a request at 900000 ms is allowed afresh. -/
theorem c3_rate_limiter_witness :
    rlCheck ⟨5, 900000⟩ none 0 = (.allow, ⟨1, 0⟩) ∧
    rlRun ⟨5, 900000⟩ (some ⟨1, 0⟩) [10, 20, 30, 40] = some ⟨5, 0⟩ ∧
    (∃ r, rlCheck ⟨5, 900000⟩ (some ⟨5, 0⟩) 50 = (.deny r, ⟨6, 0⟩) ∧
      0 < r ∧ r ≤ 900000) ∧
    rlCheck ⟨5, 900000⟩ (some ⟨6, 0⟩) 900000 = (.allow, ⟨1, 900000⟩) := by
  have h := c3_rate_limiter_spec ⟨5, 900000⟩ 0 50 900000 [10, 20, 30, 40]
    (by decide) (by decide) (by decide) (by decide) (by decide)
  exact ⟨h.1, h.2.2.1, h.2.2.2.1, h.2.2.2.2 6⟩

/-- C4 amended: body validation short-circuits at the first failing check
rather than collecting violations: whenever the title is present, non-blank
and over 255 characters, both body validators answer with the single
title-length error — whatever other fields (priority, status, due-date) the
body also violates. -/
theorem c4_first_violation_only (dateOk : Option JVal → Bool) (body : Body) (s : String)
    (ht : body.lookup "title" = some (JVal.str s))
    (htrim : trimChars s.data ≠ [])
    (hlen : s.length > 255) :
    validateCreateTask dateOk body = some "Title must be 255 character or less" ∧
    validateUpdateTask dateOk body = some "title must be 255 characters or less" := by
  have hs : s ≠ "" := by
    rintro rfl
    exact htrim rfl
  have hb : body ≠ [] := by
    rintro rfl
    simp at ht
  constructor
  · simp [validateCreateTask, ht, jsTruthy, JVal.truthy, isStringVal, strOf, hs, htrim, hlen]
  · simp [validateUpdateTask, ht, jsTruthy, JVal.truthy, isStringVal, strOf, hs, htrim, hlen,
      List.length_eq_zero, hb]

/-- C4 witness: the over-long title together with an invalid priority gets
only the title error, from `c4_first_violation_only` at that body. -/
theorem c4_first_violation_witness :
    validateCreateTask dateOkAll
        [("title", JVal.str (String.mk (List.replicate 256 'b'))),
         ("priority", JVal.str "urgent")] =
      some "Title must be 255 character or less" ∧
    validateUpdateTask dateOkAll
        [("title", JVal.str (String.mk (List.replicate 256 'b'))),
         ("priority", JVal.str "urgent")] =
      some "title must be 255 characters or less" :=
  c4_first_violation_only dateOkAll _ (String.mk (List.replicate 256 'b'))
    (by decide) (by decide) (by decide)

/-- C5 amended: only the literally empty body is rejected by the
at-least-one-field gate (400, "at least one field is required for update");
any nonempty body passes it, even one none of whose keys is a recognized
field — such a body sails through the whole update validation. -/
theorem c5_empty_body_only (dateOk : Option JVal → Bool) (body : Body)
    (hne : body ≠ [])
    (ht : body.lookup "title" = none) (hst : body.lookup "status" = none)
    (hp : body.lookup "priority" = none) (hd : body.lookup "due_date" = none) :
    validateUpdateTask dateOk body = none ∧
    validateUpdateTask dateOk [] = some "at least one field is required for update" := by
  constructor
  · simp [validateUpdateTask, ht, hst, hp, hd, jsTruthy, List.length_eq_zero, hne]
  · rfl

/-- C5 witness: the body `{"foo": 1}` passes update validation, while `{}`
is rejected, from `c5_empty_body_only` at that body. -/
theorem c5_empty_body_witness :
    validateUpdateTask dateOkAll [("foo", JVal.num 1)] = none ∧
    validateUpdateTask dateOkAll [] = some "at least one field is required for update" :=
  c5_empty_body_only dateOkAll [("foo", JVal.num 1)]
    (by decide) (by decide) (by decide) (by decide) (by decide)

/-- C8 amended: the built list query sorts by `created_at` descending unless
overridden, ascending exactly when `order` is `asc`; the sort column is
whatever (truthy) string the caller put in `sort_by` — the validator never
restricts it to the allow-list; with a truthy offset and no limit the range
window is rows `offset` through `offset + 9`; and an exact total count is
always requested alongside. -/
theorem c8_sort_and_pagination (p : TaskQueryParams) :
    (p.sort_by = none → (getAllTasksQuery p).sortColumn = "created_at") ∧
    (∀ s, p.sort_by = some s → s ≠ "" → (getAllTasksQuery p).sortColumn = s) ∧
    ((getAllTasksQuery p).ascending = true ↔ p.order = some "asc") ∧
    (∀ o : Int, p.offset = some o → o ≠ 0 → p.limit = none →
      (getAllTasksQuery p).range = some (o, o + 9)) ∧
    (getAllTasksQuery p).countExact = true := by
  refine ⟨?_, ?_, ?_, ?_, rfl⟩
  · intro h
    simp [getAllTasksQuery, h]
  · intro s hs hne
    simp [getAllTasksQuery, hs, hne]
  · simp [getAllTasksQuery]
  · intro o ho hne hlim
    simp [getAllTasksQuery, ho, hne, hlim, intTruthy]

/-- C8 witness: `sort_by=due_date`, `order=asc`, `offset=3`, no limit gives
the ascending due-date sort with window (3, 12), from
`c8_sort_and_pagination` at those parameters. -/
theorem c8_sort_and_pagination_witness :
    (getAllTasksQuery { sort_by := some "due_date", order := some "asc", offset := some 3 }).sortColumn = "due_date" ∧
    (getAllTasksQuery { sort_by := some "due_date", order := some "asc", offset := some 3 }).ascending = true ∧
    (getAllTasksQuery { sort_by := some "due_date", order := some "asc", offset := some 3 }).range = some (3, 12) := by
  have h := c8_sort_and_pagination
    { sort_by := some "due_date", order := some "asc", offset := some 3 }
  exact ⟨h.2.1 "due_date" rfl (by decide), h.2.2.1.mpr rfl,
    by simpa using h.2.2.2.1 3 rfl (by decide) rfl⟩

/-- C9 amended: for an id that fails the UUID pattern, the Data Store is
never invoked on any of the three by-id routes; `GET` answers 400 outright,
and `PUT`/`DELETE` answer 400 whenever the preceding authenticate middleware
passed — but when authentication fails (e.g. no header) those two routes
answer 401, not 400, because authenticate runs first. -/
theorem c9_invalid_id_no_store_call (provider : String → ProviderVerdict)
    (store : String → StoreReply) (dateOk : Option JVal → Bool)
    (ah : Option String) (id : String) (body : Body)
    (hid : matchesUuid id = false) :
    getTaskByIdRoute store id = ⟨400, false, false⟩ ∧
    (putTaskRoute provider store dateOk ah id body).dataStoreCalled = false ∧
    (deleteTaskRoute provider store ah id).dataStoreCalled = false ∧
    ((authenticate provider ah).httpStatus = none →
      putTaskRoute provider store dateOk ah id body = ⟨400, false, true⟩ ∧
      deleteTaskRoute provider store ah id = ⟨400, false, true⟩) := by
  have hvid : validateTaskId id = some "invalid task ID format. Must be a valid UUID" := by
    simp [validateTaskId, hid]
  refine ⟨?_, ?_, ?_, ?_⟩
  · simp [getTaskByIdRoute, hvid]
  · rcases hst : (authenticate provider ah).httpStatus with _ | s
    · simp [putTaskRoute, hst, hvid]
    · simp [putTaskRoute, hst]
  · rcases hst : (authenticate provider ah).httpStatus with _ | s
    · simp [deleteTaskRoute, hst, hvid]
    · simp [deleteTaskRoute, hst]
  · intro hok
    exact ⟨by simp [putTaskRoute, hok, hvid], by simp [deleteTaskRoute, hok, hvid]⟩

/-- C9 witness: with a provider that accepts the presented token, a `PUT`
and a `DELETE` on the malformed id `abc` answer 400 without a store call,
and so does a `GET`; from `c9_invalid_id_no_store_call`. -/
theorem c9_invalid_id_witness :
    getTaskByIdRoute storeAlways "abc" = ⟨400, false, false⟩ ∧
    putTaskRoute (fun _ => ProviderVerdict.valid "u") storeAlways dateOkAll
      (some "Bearer tok") "abc" [] = ⟨400, false, true⟩ ∧
    deleteTaskRoute (fun _ => ProviderVerdict.valid "u") storeAlways
      (some "Bearer tok") "abc" = ⟨400, false, true⟩ := by
  have h := c9_invalid_id_no_store_call (fun _ => ProviderVerdict.valid "u") storeAlways
    dateOkAll (some "Bearer tok") "abc" [] (by decide)
  have hok := h.2.2.2 (by decide)
  exact ⟨h.1, hok.1, hok.2⟩

/-- C1 amended: status and priority predicates are indeed passed structurally
through the store's parameter-binding interface (`.eq(column, value)`), but
the search predicate is not: for every truthy search term `s` the built query
carries the `.or(...)` filter whose expression string is the concatenation
`title.ilike.%s%,description.ilike.%s%`, embedding the caller-supplied
string; every other filter of the query is a structured equality. -/
theorem c1_search_via_or_string (p : TaskQueryParams) (s : String)
    (hs : p.search = some s) (hne : s ≠ "") :
    Filter.orFilter ("title.ilike.%" ++ s ++ "%,description.ilike.%" ++ s ++ "%") ∈
      (getAllTasksQuery p).filters ∧
    ∀ f ∈ (getAllTasksQuery p).filters,
      f = Filter.orFilter ("title.ilike.%" ++ s ++ "%,description.ilike.%" ++ s ++ "%") ∨
        ∃ c v, f = Filter.eq c v := by
  have hfilters : (getAllTasksQuery p).filters =
      (if strTruthy p.status then [Filter.eq "status" (p.status.getD "")] else []) ++
      (if strTruthy p.priority then [Filter.eq "priority" (p.priority.getD "")] else []) ++
      [Filter.orFilter (searchOrExpr s)] := by
    simp [getAllTasksQuery, hs, strTruthy, hne]
  constructor
  · rw [hfilters]
    simp [searchOrExpr]
  · intro f hf
    rw [hfilters] at hf
    rcases List.mem_append.mp hf with hf' | hf'
    · rcases List.mem_append.mp hf' with hf'' | hf''
      · right
        rcases hst : strTruthy p.status with _ | _
        · rw [hst] at hf''
          simp at hf''
        · rw [hst] at hf''
          simp at hf''
          exact ⟨"status", p.status.getD "", hf''⟩
      · right
        rcases hpr : strTruthy p.priority with _ | _
        · rw [hpr] at hf''
          simp at hf''
        · rw [hpr] at hf''
          simp at hf''
          exact ⟨"priority", p.priority.getD "", hf''⟩
    · left
      simp at hf'
      rw [hf']
      simp [searchOrExpr]

/-- C1 witness: with status filter `pending` and search term `INJECT`, the
query's filters are the structured status equality plus the `.or` string
embedding `INJECT`; from `c1_search_via_or_string` at those parameters. -/
theorem c1_search_via_or_string_witness :
    Filter.orFilter "title.ilike.%INJECT%,description.ilike.%INJECT%" ∈
      (getAllTasksQuery { status := some "pending", search := some "INJECT" }).filters ∧
    ∀ f ∈ (getAllTasksQuery { status := some "pending", search := some "INJECT" }).filters,
      f = Filter.orFilter "title.ilike.%INJECT%,description.ilike.%INJECT%" ∨
        ∃ c v, f = Filter.eq c v := by
  have h := c1_search_via_or_string { status := some "pending", search := some "INJECT" }
    "INJECT" rfl (by decide)
  exact h

/-- C6 amended: a missing header, a header not starting with `Bearer`, or a
header with no nonempty second space-separated component is rejected 401
without any Identity Provider call; but whenever the header merely starts
with `Bearer` and has a nonempty second component — including shapes that
are not `Bearer <token>`, such as `Bearers evil` — that component is sent to
the provider, and a provider rejection yields 401 with no identity
attached. -/
theorem c6_auth_gate (provider : String → ProviderVerdict) (h : String) :
    authenticate provider none = ⟨some 401, none, none⟩ ∧
    (List.isPrefixOf "Bearer".data h.data = false →
      authenticate provider (some h) = ⟨some 401, none, none⟩) ∧
    ((splitChar ' ' h.data)[1]? = none →
      authenticate provider (some h) = ⟨some 401, none, none⟩) ∧
    ((splitChar ' ' h.data)[1]? = some [] →
      authenticate provider (some h) = ⟨some 401, none, none⟩) ∧
    (∀ t, (splitChar ' ' h.data)[1]? = some t → t ≠ [] →
      List.isPrefixOf "Bearer".data h.data = true →
      (authenticate provider (some h)).providerCalledWith = some (String.mk t) ∧
      (provider (String.mk t) = ProviderVerdict.invalid →
        authenticate provider (some h) = ⟨some 401, none, some (String.mk t)⟩)) := by
  refine ⟨rfl, ?_, ?_, ?_, ?_⟩
  · intro hpre
    simp [authenticate, hpre]
  · intro hget
    simp [authenticate, hget]
  · intro hget
    simp [authenticate, hget]
  · intro t hget hne hpre
    constructor
    · simp [authenticate, hpre, hget]
      rw [if_neg hne]
      rcases hp : provider (String.mk t) with _ | u <;> simp [hp]
    · intro hinv
      simp [authenticate, hpre, hget]
      rw [if_neg hne, hinv]

/-- C6 witness: a request without a header, one with a `Basic` header, one
with a bare `Bearer`, and one whose valid-shape token the provider rejects,
all answer 401 with no identity; from `c6_auth_gate`. -/
theorem c6_auth_gate_witness :
    authenticate providerInvalid none = ⟨some 401, none, none⟩ ∧
    authenticate providerInvalid (some "Basic abc") = ⟨some 401, none, none⟩ ∧
    authenticate providerInvalid (some "Bearer") = ⟨some 401, none, none⟩ ∧
    authenticate providerInvalid (some "Bearer tok123") = ⟨some 401, none, some "tok123"⟩ := by
  refine ⟨(c6_auth_gate providerInvalid "x").1, ?_, ?_, ?_⟩
  · exact (c6_auth_gate providerInvalid "Basic abc").2.1 (by decide)
  · exact (c6_auth_gate providerInvalid "Bearer").2.2.1 (by decide)
  · exact ((c6_auth_gate providerInvalid "Bearer tok123").2.2.2.2
      "tok123".data (by decide) (by decide) (by decide)).2 rfl

end TaskManager
